import Mathlib

/-!
Verification of the lease registry in `src/lease.py` (pinecrypt/lease).

The service keeps one document per issued client certificate in a MongoDB
collection `certidude_certificates`.  `submit` performs one atomic
`find_one_and_update` (returning the pre-image) that refreshes the lease
fields of a `signed` record and classifies the outcome; `flush` bulk-unsets
the ownership fields of the records claimed by this replica; `get_by_serial`
is a read-only validity check.

The store is modelled as a `List Doc`; the MongoDB primitives
(find_one_and_update with ReturnDocument.BEFORE, update_many, find_one) are
external library code and are modelled from the spec's Credential Store
Client contract.  Wall-clock time (`datetime.utcnow()`) and the host FQDN
(`socket.getfqdn()`) are passed in as parameters.  Prometheus counter
increments are modelled as a list of emitted counter events.
-/

namespace Lease

/-- A credential record of the `certidude_certificates` collection.  The
source field `instance` is modelled as `inst` (`instance` is reserved in
Lean); a record without the field is modelled with `none`.  The `ip` array
(`internalAddresses`) is modelled as a plain list: an absent array and an
empty array behave identically under `$addToSet` and are never queried. -/
structure Doc where
  serial_number : Option String
  distinguished_name : Option String
  status : String
  ip : List String
  inst : Option String
  remote_addr : Option String
  remote_port : Option Int
  last_seen : Option Nat
deriving DecidableEq, Repr

/-- The form fields of `LeaseUpdateForm` (src/lease.py lines 33-37); `none`
models a field missing from the request body.  Per wtforms semantics a
missing `StringField` processes to the empty string and a missing
`IntegerField` processes to `None`, which `NumberRange` rejects. -/
structure LeaseUpdateForm where
  service : Option String
  internal_addr : Option String
  remote_addr : Option String
  remote_port : Option Int
deriving DecidableEq, Repr

/-- Counter increments emitted by the handlers (the four Prometheus
counters of src/lease.py lines 16-31, with their label). -/
inductive CounterEvent where
  | submitEv (service : String)
  | flushEv (service : String)
  | migrationEv (replica : String)
  | notFoundEv (service : String)
deriving DecidableEq, Repr

/-- A handler's response: `response.text` body, or one of the two raised
sanic exceptions (`InvalidUsage`, `NotFound`). -/
inductive LeaseResponse where
  | ok (body : String)
  | invalidUsage (msg : String)
  | notFound (msg : String)
deriving DecidableEq, Repr

/-! ### IP-literal syntax (wtforms `IPAddress(ipv4=True, ipv6=True)`)

The validator is library code outside this repository.  Modelled from the
spec: "`internalAddr`, `remoteAddr` must be syntactically valid IPv4 or
IPv6 literals", following the standard textual forms (dotted quad with
decimal octets 0..255 and no leading zeros; colon-separated 16-bit hex
groups with at most one `::` compression and an optional embedded IPv4
tail).  All parsing is by structural recursion over the character list so
that it evaluates inside the kernel. -/

/-- Split a character list on a separator character (like
`"a.b".splitOn "."`: splitting the empty list yields one empty part). -/
def splitOnCharAux (sep : Char) : List Char → List Char → List (List Char)
  | [], acc => [acc.reverse]
  | c :: cs, acc =>
    if c == sep then acc.reverse :: splitOnCharAux sep cs []
    else splitOnCharAux sep cs (c :: acc)

/-- Split a character list on a separator character. -/
def splitOnChar (sep : Char) (cs : List Char) : List (List Char) :=
  splitOnCharAux sep cs []

/-- Decimal value of a digit string. -/
def digitsVal (cs : List Char) : Nat :=
  cs.foldl (fun n c => n * 10 + (c.toNat - '0'.toNat)) 0

/-- One dotted-quad part: 1-3 decimal digits, value at most 255, no
leading zero (except the part "0" itself). -/
def isIPv4PartChars (g : List Char) : Bool :=
  decide (0 < g.length) && decide (g.length ≤ 3) && g.all Char.isDigit &&
  (decide (g.length = 1) || g.headD '0' != '0') && decide (digitsVal g ≤ 255)

/-- Valid dotted-quad IPv4 literal. -/
def isValidIPv4Chars (cs : List Char) : Bool :=
  let ps := splitOnChar '.' cs
  decide (ps.length = 4) && ps.all isIPv4PartChars

/-- Hexadecimal digit. -/
def isHexDigitCh (c : Char) : Bool :=
  c.isDigit || ('a' ≤ c && c ≤ 'f') || ('A' ≤ c && c ≤ 'F')

/-- One 16-bit IPv6 group: 1-4 hex digits. -/
def isIPv6Group (g : List Char) : Bool :=
  decide (0 < g.length) && decide (g.length ≤ 4) && g.all isHexDigitCh

/-- Number of 16-bit groups covered by a colon-separated group list whose
last element may be an embedded IPv4 literal (worth two groups); `none` if
some element is neither. -/
def ipv6TailGroups : List (List Char) → Option Nat
  | [] => some 0
  | [g] =>
    if isIPv6Group g then some 1
    else if isValidIPv4Chars g then some 2
    else none
  | g :: gs =>
    if isIPv6Group g then (ipv6TailGroups gs).map (· + 1) else none

/-- Split at the first `::`, when present. -/
def splitOnDoubleColonAux : List Char → List Char → Option (List Char × List Char)
  | [], _ => none
  | ':' :: ':' :: rest, acc => some (acc.reverse, rest)
  | c :: cs, acc => splitOnDoubleColonAux cs (c :: acc)

/-- Split at the first `::`, when present. -/
def splitOnDoubleColon (cs : List Char) : Option (List Char × List Char) :=
  splitOnDoubleColonAux cs []

/-- Whether `::` occurs in the character list. -/
def containsDoubleColon : List Char → Bool
  | [] => false
  | ':' :: ':' :: _ => true
  | _ :: cs => containsDoubleColon cs

/-- Colon-separated groups of a (possibly empty) side of a `::`. -/
def ipv6SideGroups (cs : List Char) : List (List Char) :=
  match cs with
  | [] => []
  | _ => splitOnChar ':' cs

/-- Valid IPv6 literal: without `::` exactly eight groups (an embedded
IPv4 tail counting as two); with one `::` the remaining groups number at
most seven (the compression stands for at least one zero group). -/
def isValidIPv6Chars (cs : List Char) : Bool :=
  match splitOnDoubleColon cs with
  | none =>
    match ipv6TailGroups (ipv6SideGroups cs) with
    | some n => decide (n = 8)
    | none => false
  | some (l, r) =>
    if containsDoubleColon r then false
    else
      (ipv6SideGroups l).all isIPv6Group &&
      match ipv6TailGroups (ipv6SideGroups r) with
      | some n => decide ((ipv6SideGroups l).length + n ≤ 7)
      | none => false

/-- Valid IPv4 or IPv6 literal. -/
def isValidIP (s : String) : Bool :=
  isValidIPv4Chars s.toList || isValidIPv6Chars s.toList

/-! ### Form validation (src/lease.py lines 33-37, 55-57)

`internal_addr` and `remote_addr` carry `DataRequired` and
`IPAddress(ipv4=True, ipv6=True)`; `remote_port` carries
`NumberRange(min=0, max=65534)` (and a missing `IntegerField` is `None`,
which `NumberRange` rejects); `service` carries no validators. -/

/-- Validation of one IP form field: present and a valid literal (a
missing or empty `StringField` fails `DataRequired`, and no string that
fails `DataRequired` passes the IP syntax check). -/
def validIP? : Option String → Bool
  | some a => isValidIP a
  | none => false

/-- Validation of the `remote_port` field: present and within
`NumberRange(min=0, max=65534)`. -/
def validPort? : Option Int → Bool
  | some p => decide (0 ≤ p) && decide (p ≤ 65534)
  | none => false

/-- `form.validate()` for `LeaseUpdateForm`. -/
def validate (f : LeaseUpdateForm) : Bool :=
  validIP? f.internal_addr && validIP? f.remote_addr && validPort? f.remote_port

/-- `form.service.data`: a missing `StringField` processes to `""`. -/
def serviceData (f : LeaseUpdateForm) : String := f.service.getD ""

/-- `form.internal_addr.data` (defined whenever validation passed). -/
def internalData (f : LeaseUpdateForm) : String := f.internal_addr.getD ""

/-- `form.remote_addr.data` (defined whenever validation passed). -/
def remoteData (f : LeaseUpdateForm) : String := f.remote_addr.getD ""

/-- `form.remote_port.data` (defined whenever validation passed). -/
def portData (f : LeaseUpdateForm) : Int := f.remote_port.getD 0

/-! ### Identity queries and the store primitives -/

/-- The identity part of the lookup query: `submit_by_serial` passes
`serial_number` (rendered in hex), `submit_by_dn` passes
`distinguished_name`.  `submit` conjoins `status = "signed"`. -/
inductive Query where
  | bySerial (serial_number : String)
  | byDN (distinguished_name : String)
deriving DecidableEq, Repr

/-- The predicate the store evaluates for `submit`: the identity key plus
`status = "signed"` (src/lease.py line 52). -/
def matchesQuery : Query → Doc → Bool
  | .bySerial sn, d => d.serial_number == some sn && d.status == "signed"
  | .byDN dn, d => d.distinguished_name == some dn && d.status == "signed"

/-- Replace the first document satisfying the predicate by its update. -/
def replaceFirst (p : Doc → Bool) (u : Doc → Doc) : List Doc → List Doc
  | [] => []
  | d :: ds => if p d then u d :: ds else d :: replaceFirst p u ds

/-- Modelled from the spec: the Credential Store Client's
`atomicUpdateReturningPrevious` (MongoDB `find_one_and_update` with
`ReturnDocument.BEFORE`, external library code): atomically update the
first matching document and return its pre-image, or `none` when nothing
matches. -/
def find_one_and_update (p : Doc → Bool) (u : Doc → Doc) (store : List Doc) :
    Option Doc × List Doc :=
  (store.find? p, replaceFirst p u store)

/-- Modelled from the spec: the Credential Store Client's
`atomicBulkUpdate` (MongoDB `update_many`, external library code):
atomically update every matching document and report how many were
affected. -/
def update_many (p : Doc → Bool) (u : Doc → Doc) (store : List Doc) :
    Nat × List Doc :=
  (store.countP p, store.map fun d => if p d then u d else d)

/-! ### The submit handler (src/lease.py lines 51-78) -/

/-- The owning-instance string `"%s-%s" % (FQDN, service)`
(src/lease.py lines 59 and 109). -/
def mkInstance (fqdn service : String) : String := fqdn ++ "-" ++ service

/-- MongoDB `$addToSet` on an array: append the value unless it is
already present. -/
def addToSet (a : String) (l : List String) : List String :=
  if a ∈ l then l else l ++ [a]

/-- The update document of `submit`: `$set` of `last_seen`, `instance`,
`remote.port`, `remote.addr`, and `$addToSet` of `ip`
(src/lease.py lines 61-69). -/
def leaseUpdate (now : Nat) (inst : String) (f : LeaseUpdateForm) (d : Doc) : Doc :=
  { d with
    last_seen := some now
    inst := some inst
    remote_port := some (portData f)
    remote_addr := some (remoteData f)
    ip := addToSet (internalData f) d.ip }

/-- The counter increments of `submit`, a function of the pre-image alone
(src/lease.py lines 71-77): the per-service submission counter on a match,
the per-replica migration counter additionally when the pre-image's
`instance` differs from this instance, the per-service not-found counter
on no match. -/
def classify (fqdn service inst : String) : Option Doc → List CounterEvent
  | some d =>
    .submitEv service :: (if d.inst == some inst then [] else [.migrationEv fqdn])
  | none => [.notFoundEv service]

/-- The response of `submit`, a function of the pre-image alone. -/
def respOf : Option Doc → LeaseResponse
  | some _ => .ok "Client lease info updated"
  | none => .notFound "Client not found"

/-- Everything a `submit` call produces: the response, the new store
contents, and the emitted counter increments. -/
structure SubmitOutcome where
  resp : LeaseResponse
  store : List Doc
  events : List CounterEvent
deriving DecidableEq, Repr

/-- The `submit` coroutine (src/lease.py lines 51-78): validate the form
(raising `InvalidUsage` before any store access on failure), then issue
one `find_one_and_update` and classify its pre-image. -/
def submit (now : Nat) (fqdn : String) (q : Query) (f : LeaseUpdateForm)
    (store : List Doc) : SubmitOutcome :=
  if validate f then
    let inst := mkInstance fqdn (serviceData f)
    let r := find_one_and_update (matchesQuery q) (leaseUpdate now inst f) store
    { resp := respOf r.1
      store := r.2
      events := classify fqdn (serviceData f) inst r.1 }
  else
    { resp := .invalidUsage "Invalid form input", store := store, events := [] }

/-- `"%x" % n`: lowercase hexadecimal rendering of a serial number. -/
def toHex (n : Nat) : String := String.mk (Nat.toDigits 16 n)

/-- `str.replace("%20", " ")` on the distinguished-name path parameter,
left to right and non-overlapping. -/
def decodeSpaces : List Char → List Char
  | '%' :: '2' :: '0' :: rest => ' ' :: decodeSpaces rest
  | c :: cs => c :: decodeSpaces cs
  | [] => []

/-- The `POST /api/by-serial/<serial_number:int>` endpoint
(src/lease.py lines 98-100). -/
def submit_by_serial (now : Nat) (fqdn : String) (serial_number : Nat)
    (f : LeaseUpdateForm) (store : List Doc) : SubmitOutcome :=
  submit now fqdn (.bySerial (toHex serial_number)) f store

/-- The `POST /api/by-dn/<distinguished_name:string>` endpoint
(src/lease.py lines 93-95). -/
def submit_by_dn (now : Nat) (fqdn : String) (distinguished_name : String)
    (f : LeaseUpdateForm) (store : List Doc) : SubmitOutcome :=
  submit now fqdn (.byDN (String.mk (decodeSpaces distinguished_name.toList))) f store

/-! ### The flush handler (src/lease.py lines 103-117) -/

/-- The `$unset` of `ip` and `instance` (src/lease.py lines 111-114).
An unset `ip` array behaves like the empty list everywhere. -/
def unsetLease (d : Doc) : Doc := { d with ip := [], inst := none }

/-- Everything a `flush` call produces: the response, the new store, the
store-reported count of affected documents (computed by `update_many` but
discarded by the handler), and the emitted counter increments. -/
structure FlushOutcome where
  resp : LeaseResponse
  store : List Doc
  modifiedCount : Nat
  events : List CounterEvent
deriving DecidableEq, Repr

/-- The `DELETE /api/by-service/<service:string>` endpoint
(src/lease.py lines 103-117): `update_many` over the documents whose
`instance` equals this replica-plus-service string, `$unset` of `ip` and
`instance`, then the flush counter, then the fixed text response. -/
def flush (fqdn service : String) (store : List Doc) : FlushOutcome :=
  let r := update_many (fun d => d.inst == some (mkInstance fqdn service))
    unsetLease store
  { resp := .ok "Leases flushed"
    store := r.2
    modifiedCount := r.1
    events := [.flushEv service] }

/-- One step of the flush bulk update on a single document. -/
def flushStep (i : String) (d : Doc) : Doc :=
  if d.inst == some i then unsetLease d else d

/-! ### The validity check (src/lease.py lines 81-90) -/

/-- The `GET /api/by-serial/<serial_number:int>` endpoint: a read-only
`find_one` on `serial_number` (rendered `"%x"`) and `status = "signed"`;
the store is returned unchanged. -/
def get_by_serial (serial_number : Nat) (store : List Doc) :
    LeaseResponse × List Doc :=
  match store.find? fun d =>
      d.serial_number == some (toHex serial_number) && d.status == "signed" with
  | some _ => (.ok "Certificate valid", store)
  | none => (.notFound "Certificate not found or not valid", store)

/-! ### Concrete fixtures for witnesses and counterexamples -/

/-- A fresh signed record with serial `"ab"` and no `instance` field. -/
def doc1 : Doc :=
  { serial_number := some "ab"
    distinguished_name := none
    status := "signed"
    ip := []
    inst := none
    remote_addr := none
    remote_port := none
    last_seen := none }

/-- A signed record currently owned by another replica. -/
def docOwnedByOther : Doc := { doc1 with inst := some "replica2-ovpn" }

/-- A signed record currently owned by replica1's ovpn service. -/
def docOwnedBySelf : Doc := { doc1 with inst := some "replica1-ovpn" }

/-- A revoked record with serial `"ab"`. -/
def docRevoked : Doc := { doc1 with status := "revoked" }

/-- A record claimed under fqdn `"a-b"` and service `"c"`. -/
def docCollide : Doc := { doc1 with inst := some "a-b-c" }

/-- A fully valid form submission for service `"ovpn"`. -/
def form1 : LeaseUpdateForm :=
  { service := some "ovpn"
    internal_addr := some "10.0.0.1"
    remote_addr := some "192.0.2.7"
    remote_port := some 1194 }

/-- A form whose remote port is 65535, just past `NumberRange(max=65534)`. -/
def formBadPort : LeaseUpdateForm := { form1 with remote_port := some 65535 }

/-- A form with the `service` field missing. -/
def formNoService : LeaseUpdateForm := { form1 with service := none }

/-- A form with the `remote_addr` field missing. -/
def formNoRemote : LeaseUpdateForm := { form1 with remote_addr := none }

/-! ### Helper lemmas -/

/-- When nothing matches, the conditional update leaves the store as it was. -/
theorem replaceFirst_of_none (p : Doc → Bool) (u : Doc → Doc) (l : List Doc)
    (h : l.find? p = none) : replaceFirst p u l = l := by
  induction l with
  | nil => rfl
  | cons d ds ih =>
    cases hp : p d with
    | true =>
      rw [List.find?_cons_of_pos _ hp] at h
      exact absurd h (by simp)
    | false =>
      rw [List.find?_cons_of_neg _ (by simp [hp])] at h
      simp [replaceFirst, hp, ih h]

/-- The added address is in the array after `$addToSet`. -/
theorem mem_addToSet (a : String) (l : List String) : a ∈ addToSet a l := by
  by_cases h : a ∈ l
  · simp [addToSet, h]
  · simp [addToSet, h]

/-- `$addToSet` of an already present value changes nothing. -/
theorem addToSet_of_mem (a : String) (l : List String) (h : a ∈ l) :
    addToSet a l = l := by
  simp [addToSet, h]

/-- `$addToSet` is idempotent. -/
theorem addToSet_idem (a : String) (l : List String) :
    addToSet a (addToSet a l) = addToSet a l :=
  addToSet_of_mem a _ (mem_addToSet a l)

/-- `$addToSet` of an absent value yields exactly one copy. -/
theorem count_addToSet_of_count_zero (a : String) (l : List String)
    (h : l.count a = 0) : (addToSet a l).count a = 1 := by
  have h2 : a ∉ l := List.count_eq_zero.mp h
  simp [addToSet, h2, List.count_append, h]

/-- The updated image of the matched document is in the updated store. -/
theorem mem_replaceFirst_of_find? (p : Doc → Bool) (u : Doc → Doc) (l : List Doc)
    (d : Doc) (h : l.find? p = some d) : u d ∈ replaceFirst p u l := by
  induction l with
  | nil => simp [List.find?] at h
  | cons e es ih =>
    cases hp : p e with
    | true =>
      rw [List.find?_cons_of_pos _ hp] at h
      cases h
      simp [replaceFirst, hp]
    | false =>
      rw [List.find?_cons_of_neg _ (by simp [hp])] at h
      simp [replaceFirst, hp, ih h]

/-- A document coming out of the flush update no longer matches the flush
query. -/
theorem flushStep_not_match (i : String) (d : Doc) :
    ((flushStep i d).inst == some i) = false := by
  unfold flushStep
  cases hx : (d.inst == some i) with
  | false => simp [hx]
  | true => simp [hx, unsetLease]

/-- A document not matching the flush query is untouched by its update. -/
theorem flushStep_of_not_match (i : String) (d : Doc)
    (h : (d.inst == some i) = false) : flushStep i d = d := by
  simp [flushStep, h]

/-- The flush update is idempotent on a single document. -/
theorem flushStep_idem (i : String) (d : Doc) :
    flushStep i (flushStep i d) = flushStep i d :=
  flushStep_of_not_match i _ (flushStep_not_match i d)

/-- The flush bulk update is idempotent on the whole store. -/
theorem map_flushStep_idem (i : String) (l : List Doc) :
    (l.map (flushStep i)).map (flushStep i) = l.map (flushStep i) := by
  induction l with
  | nil => rfl
  | cons d ds ih => simp [flushStep_idem, ih]

/-- After a flush nothing matches the flush query any more. -/
theorem countP_map_flushStep (i : String) (l : List Doc) :
    ((l.map (flushStep i)).countP fun d => d.inst == some i) = 0 := by
  induction l with
  | nil => rfl
  | cons d ds ih => simp [List.countP_cons, ih, flushStep_not_match]

/-! ### Claim C1 -/

/-- Claim C1, counterexample: a matched record whose `instance` field was
unset is counted as a migration by `submit` (the source compares
`doc.get("instance") != instance`, and `None` differs from every instance
string), contradicting the claim that an unset prior owner is classified
`Updated` with no migration counted. -/
theorem submit_unset_instance_counts_migration :
    doc1.inst = none
    ∧ (submit 7 "replica1" (Query.bySerial "ab") form1 [doc1]).resp
        = LeaseResponse.ok "Client lease info updated"
    ∧ (submit 7 "replica1" (Query.bySerial "ab") form1 [doc1]).events
        = [CounterEvent.submitEv "ovpn", CounterEvent.migrationEv "replica1"] := by
  decide

/-- Claim C1 as amended: for every submit call that finds a matching
record, the per-service submission counter is incremented, the not-found
counter is not, and the migration counter for this replica is incremented
exactly when the record's `instance` before the write differs from this
instance string in any way — including when it was unset. -/
theorem submit_migration_iff_instance_differs (now : Nat) (fqdn : String)
    (q : Query) (f : LeaseUpdateForm) (store : List Doc) (d : Doc)
    (hv : validate f = true) (hd : store.find? (matchesQuery q) = some d) :
    (CounterEvent.migrationEv fqdn ∈ (submit now fqdn q f store).events
      ↔ d.inst ≠ some (mkInstance fqdn (serviceData f)))
    ∧ CounterEvent.submitEv (serviceData f) ∈ (submit now fqdn q f store).events
    ∧ CounterEvent.notFoundEv (serviceData f) ∉ (submit now fqdn q f store).events := by
  have hev : (submit now fqdn q f store).events
      = CounterEvent.submitEv (serviceData f) ::
        (if d.inst == some (mkInstance fqdn (serviceData f)) then []
         else [CounterEvent.migrationEv fqdn]) := by
    simp [submit, hv, find_one_and_update, hd, classify]
  rw [hev]
  cases hb : (d.inst == some (mkInstance fqdn (serviceData f))) with
  | true =>
    have hbe := eq_of_beq hb
    simp [hb, hbe]
  | false =>
    have hbe := ne_of_beq_false hb
    simp [hb, hbe]

/-- Claim C1 witness: a record owned by another replica is classified as a
migration, with the submission counter also incremented. -/
theorem submit_migration_iff_instance_differs_w :
    (CounterEvent.migrationEv "replica1"
        ∈ (submit 7 "replica1" (Query.bySerial "ab") form1 [docOwnedByOther]).events
      ↔ docOwnedByOther.inst ≠ some (mkInstance "replica1" (serviceData form1)))
    ∧ CounterEvent.submitEv (serviceData form1)
        ∈ (submit 7 "replica1" (Query.bySerial "ab") form1 [docOwnedByOther]).events
    ∧ CounterEvent.notFoundEv (serviceData form1)
        ∉ (submit 7 "replica1" (Query.bySerial "ab") form1 [docOwnedByOther]).events :=
  submit_migration_iff_instance_differs 7 "replica1" (Query.bySerial "ab") form1
    [docOwnedByOther] docOwnedByOther (by decide) (by decide)

/-! ### Claim C2 -/

/-- Claim C2: for every submit call with valid input, the store
transformation is exactly one `find_one_and_update` (the atomic
read-modify-write returning the pre-image), and both the response and the
counter classification are pure functions of the pre-image delivered by
that same operation — no separate read is involved. -/
theorem submit_single_atomic_operation (now : Nat) (fqdn : String) (q : Query)
    (f : LeaseUpdateForm) (store : List Doc) (hv : validate f = true) :
    (submit now fqdn q f store).store
      = (find_one_and_update (matchesQuery q)
          (leaseUpdate now (mkInstance fqdn (serviceData f)) f) store).2
    ∧ (submit now fqdn q f store).events
      = classify fqdn (serviceData f) (mkInstance fqdn (serviceData f))
          (find_one_and_update (matchesQuery q)
            (leaseUpdate now (mkInstance fqdn (serviceData f)) f) store).1
    ∧ (submit now fqdn q f store).resp
      = respOf (find_one_and_update (matchesQuery q)
          (leaseUpdate now (mkInstance fqdn (serviceData f)) f) store).1 := by
  refine ⟨?_, ?_, ?_⟩ <;> simp [submit, hv]

/-- Claim C2 witness at a concrete store and form. -/
theorem submit_single_atomic_operation_w :
    (submit 7 "replica1" (Query.bySerial "ab") form1 [doc1]).store
      = (find_one_and_update (matchesQuery (Query.bySerial "ab"))
          (leaseUpdate 7 (mkInstance "replica1" (serviceData form1)) form1) [doc1]).2
    ∧ (submit 7 "replica1" (Query.bySerial "ab") form1 [doc1]).events
      = classify "replica1" (serviceData form1)
          (mkInstance "replica1" (serviceData form1))
          (find_one_and_update (matchesQuery (Query.bySerial "ab"))
            (leaseUpdate 7 (mkInstance "replica1" (serviceData form1)) form1) [doc1]).1
    ∧ (submit 7 "replica1" (Query.bySerial "ab") form1 [doc1]).resp
      = respOf (find_one_and_update (matchesQuery (Query.bySerial "ab"))
          (leaseUpdate 7 (mkInstance "replica1" (serviceData form1)) form1) [doc1]).1 :=
  submit_single_atomic_operation 7 "replica1" (Query.bySerial "ab") form1 [doc1]
    (by decide)

/-! ### Claim C3 -/

/-- Claim C3: on a match the applied update sets `last_seen` to the
current time, overwrites the remote address and port and the owning
instance, and adds the internal address to `ip` with set semantics —
adding it again changes nothing and a fresh address ends up with exactly
one copy. -/
theorem submit_applies_lease_update (now : Nat) (fqdn : String) (q : Query)
    (f : LeaseUpdateForm) (store : List Doc) (d : Doc)
    (hv : validate f = true) (hd : store.find? (matchesQuery q) = some d) :
    (submit now fqdn q f store).store
      = replaceFirst (matchesQuery q)
          (leaseUpdate now (mkInstance fqdn (serviceData f)) f) store
    ∧ (leaseUpdate now (mkInstance fqdn (serviceData f)) f d).last_seen = some now
    ∧ (leaseUpdate now (mkInstance fqdn (serviceData f)) f d).remote_addr
        = some (remoteData f)
    ∧ (leaseUpdate now (mkInstance fqdn (serviceData f)) f d).remote_port
        = some (portData f)
    ∧ (leaseUpdate now (mkInstance fqdn (serviceData f)) f d).inst
        = some (mkInstance fqdn (serviceData f))
    ∧ internalData f ∈ (leaseUpdate now (mkInstance fqdn (serviceData f)) f d).ip
    ∧ (leaseUpdate now (mkInstance fqdn (serviceData f)) f
        (leaseUpdate now (mkInstance fqdn (serviceData f)) f d)).ip
        = (leaseUpdate now (mkInstance fqdn (serviceData f)) f d).ip
    ∧ (d.ip.count (internalData f) = 0 →
        (leaseUpdate now (mkInstance fqdn (serviceData f)) f d).ip.count
          (internalData f) = 1)
    ∧ leaseUpdate now (mkInstance fqdn (serviceData f)) f d
        ∈ (submit now fqdn q f store).store :=
  ⟨by simp [submit, hv, find_one_and_update], rfl, rfl, rfl, rfl,
    mem_addToSet _ _, addToSet_idem _ _,
    fun h => count_addToSet_of_count_zero _ _ h,
    by
      have hm := mem_replaceFirst_of_find? (matchesQuery q)
        (leaseUpdate now (mkInstance fqdn (serviceData f)) f) store d hd
      simpa [submit, hv, find_one_and_update] using hm⟩

/-- Claim C3 witness at a fresh record with an empty address array. -/
theorem submit_applies_lease_update_w :
    (submit 7 "replica1" (Query.bySerial "ab") form1 [doc1]).store
      = replaceFirst (matchesQuery (Query.bySerial "ab"))
          (leaseUpdate 7 (mkInstance "replica1" (serviceData form1)) form1) [doc1]
    ∧ (leaseUpdate 7 (mkInstance "replica1" (serviceData form1)) form1 doc1).last_seen
        = some 7
    ∧ (leaseUpdate 7 (mkInstance "replica1" (serviceData form1)) form1 doc1).remote_addr
        = some (remoteData form1)
    ∧ (leaseUpdate 7 (mkInstance "replica1" (serviceData form1)) form1 doc1).remote_port
        = some (portData form1)
    ∧ (leaseUpdate 7 (mkInstance "replica1" (serviceData form1)) form1 doc1).inst
        = some (mkInstance "replica1" (serviceData form1))
    ∧ internalData form1
        ∈ (leaseUpdate 7 (mkInstance "replica1" (serviceData form1)) form1 doc1).ip
    ∧ (leaseUpdate 7 (mkInstance "replica1" (serviceData form1)) form1
        (leaseUpdate 7 (mkInstance "replica1" (serviceData form1)) form1 doc1)).ip
        = (leaseUpdate 7 (mkInstance "replica1" (serviceData form1)) form1 doc1).ip
    ∧ (doc1.ip.count (internalData form1) = 0 →
        (leaseUpdate 7 (mkInstance "replica1" (serviceData form1)) form1 doc1).ip.count
          (internalData form1) = 1)
    ∧ leaseUpdate 7 (mkInstance "replica1" (serviceData form1)) form1 doc1
        ∈ (submit 7 "replica1" (Query.bySerial "ab") form1 [doc1]).store :=
  submit_applies_lease_update 7 "replica1" (Query.bySerial "ab") form1 [doc1] doc1
    (by decide) (by decide)

/-! ### Claim C4 -/

/-- Claim C4: when no record matches the identity query with
`status = "signed"`, submit answers `NotFound` (a constructor distinct
from the validation failure), increments only the per-service not-found
counter, and leaves every record in the store unchanged. -/
theorem submit_not_found_no_mutation (now : Nat) (fqdn : String) (q : Query)
    (f : LeaseUpdateForm) (store : List Doc) (hv : validate f = true)
    (hd : store.find? (matchesQuery q) = none) :
    (submit now fqdn q f store).resp = LeaseResponse.notFound "Client not found"
    ∧ (submit now fqdn q f store).store = store
    ∧ (submit now fqdn q f store).events
        = [CounterEvent.notFoundEv (serviceData f)] := by
  have hrep := replaceFirst_of_none (matchesQuery q)
    (leaseUpdate now (mkInstance fqdn (serviceData f)) f) store hd
  refine ⟨?_, ?_, ?_⟩ <;> simp [submit, hv, find_one_and_update, hd, hrep, respOf, classify]

/-- Claim C4 witness: a revoked record with the right serial is not
matched, the not-found counter fires, and the store is untouched. -/
theorem submit_not_found_no_mutation_w :
    (submit 7 "replica1" (Query.bySerial "ab") form1 [docRevoked]).resp
      = LeaseResponse.notFound "Client not found"
    ∧ (submit 7 "replica1" (Query.bySerial "ab") form1 [docRevoked]).store
      = [docRevoked]
    ∧ (submit 7 "replica1" (Query.bySerial "ab") form1 [docRevoked]).events
      = [CounterEvent.notFoundEv (serviceData form1)] :=
  submit_not_found_no_mutation 7 "replica1" (Query.bySerial "ab") form1 [docRevoked]
    (by decide) (by decide)

/-! ### Claim C5 -/

/-- Claim C5: `flush` sends every record through `flushStep` — records
whose `instance` equals this replica-plus-service string are cleared by
`unsetLease` (`ip` emptied, `instance` unset) and all others are left
as they are — and it is idempotent: an immediate second flush leaves the
store unchanged, affects zero records, raises no error, and still
increments the per-service flush counter. -/
theorem flush_clears_exactly_and_idempotent (fqdn service : String)
    (store : List Doc) :
    (flush fqdn service store).store
      = store.map (flushStep (mkInstance fqdn service))
    ∧ (flush fqdn service (flush fqdn service store).store).store
      = (flush fqdn service store).store
    ∧ (flush fqdn service (flush fqdn service store).store).modifiedCount = 0
    ∧ (flush fqdn service store).resp = LeaseResponse.ok "Leases flushed"
    ∧ (flush fqdn service (flush fqdn service store).store).resp
      = LeaseResponse.ok "Leases flushed"
    ∧ (flush fqdn service store).events = [CounterEvent.flushEv service]
    ∧ (flush fqdn service (flush fqdn service store).store).events
      = [CounterEvent.flushEv service] :=
  ⟨rfl, map_flushStep_idem (mkInstance fqdn service) store,
    countP_map_flushStep (mkInstance fqdn service) store, rfl, rfl, rfl, rfl⟩

/-! ### Claim C6 -/

/-- Claim C6, counterexample: two flushes that clear different numbers of
records (one and zero) return the very same response text, so the value
returned to the caller is not the count of records cleared. -/
theorem flush_response_independent_of_count :
    (flush "replica1" "ovpn" [docOwnedBySelf]).modifiedCount = 1
    ∧ (flush "replica1" "ovpn" ([] : List Doc)).modifiedCount = 0
    ∧ (flush "replica1" "ovpn" [docOwnedBySelf]).resp
        = (flush "replica1" "ovpn" ([] : List Doc)).resp
    ∧ (flush "replica1" "ovpn" [docOwnedBySelf]).resp
        = LeaseResponse.ok "Leases flushed" := by
  decide

/-- Claim C6 as amended: the store computes the count of affected records,
but the handler discards it and always returns the fixed text
`"Leases flushed"` to the caller. -/
theorem flush_returns_fixed_text (fqdn service : String) (store : List Doc) :
    (flush fqdn service store).resp = LeaseResponse.ok "Leases flushed"
    ∧ (flush fqdn service store).modifiedCount
      = store.countP fun d => d.inst == some (mkInstance fqdn service) :=
  ⟨rfl, rfl⟩

/-! ### Claim C7 -/

/-- Claim C7: a submitted internal or remote address that is not a valid
IPv4 or IPv6 literal, or a remote port outside `[0, 65534]`, is rejected
as `InvalidUsage` (a constructor distinct from `NotFound`) before any
store access: the store is unchanged and no counter fires, for any
identity query and hence for both submission endpoints. -/
theorem submit_rejects_malformed_input (now : Nat) (fqdn : String) (q : Query)
    (f : LeaseUpdateForm) (store : List Doc)
    (h : (∃ a, f.internal_addr = some a ∧ isValidIP a = false)
      ∨ (∃ a, f.remote_addr = some a ∧ isValidIP a = false)
      ∨ (∃ p, f.remote_port = some p ∧ (p < 0 ∨ 65534 < p))) :
    (submit now fqdn q f store).resp = LeaseResponse.invalidUsage "Invalid form input"
    ∧ (submit now fqdn q f store).store = store
    ∧ (submit now fqdn q f store).events = [] := by
  have hv : validate f = false := by
    rcases h with ⟨a, ha, hbad⟩ | ⟨a, ha, hbad⟩ | ⟨p, hp, hbad⟩
    · simp [validate, validIP?, ha, hbad]
    · simp [validate, validIP?, ha, hbad]
    · have hport : validPort? f.remote_port = false := by
        rw [hp]
        simp only [validPort?]
        rcases hbad with h1 | h1
        · have hn : ¬(0 ≤ p) := by omega
          simp [hn]
        · have hn : ¬(p ≤ 65534) := by omega
          simp [hn]
      simp [validate, hport]
  refine ⟨?_, ?_, ?_⟩ <;> simp [submit, hv]

/-- Claim C7 witness: remote port 65535 (one past `NumberRange(max=65534)`)
is rejected before any store access. -/
theorem submit_rejects_malformed_input_w :
    (submit 7 "replica1" (Query.bySerial "ab") formBadPort [doc1]).resp
      = LeaseResponse.invalidUsage "Invalid form input"
    ∧ (submit 7 "replica1" (Query.bySerial "ab") formBadPort [doc1]).store = [doc1]
    ∧ (submit 7 "replica1" (Query.bySerial "ab") formBadPort [doc1]).events = [] :=
  submit_rejects_malformed_input 7 "replica1" (Query.bySerial "ab") formBadPort [doc1]
    (Or.inr (Or.inr ⟨65535, rfl, Or.inr (by decide)⟩))

/-! ### Claim C8 -/

/-- Claim C8, counterexample: the `service` field carries no validators in
`LeaseUpdateForm`, so a request missing it is not rejected: the submission
goes through, mutates the store, and the silently coerced empty string
reaches the store inside the owning-instance value `"replica1-"`. -/
theorem submit_missing_service_reaches_store :
    formNoService.service = none
    ∧ (submit 7 "replica1" (Query.bySerial "ab") formNoService [doc1]).resp
        = LeaseResponse.ok "Client lease info updated"
    ∧ (submit 7 "replica1" (Query.bySerial "ab") formNoService [doc1]).store
        ≠ [doc1]
    ∧ (submit 7 "replica1" (Query.bySerial "ab") formNoService [doc1]).store
        = [leaseUpdate 7 (mkInstance "replica1" "") formNoService doc1]
    ∧ (leaseUpdate 7 (mkInstance "replica1" "") formNoService doc1).inst
        = some "replica1-" := by
  decide

/-- Claim C8 as amended: a submit request missing the internal address,
remote address, or remote port field is rejected before any store access
as a client input error; the service field alone is not required — when
missing it is coerced to the empty string, which reaches the store inside
the owning-instance value. -/
theorem submit_rejects_missing_required_field (now : Nat) (fqdn : String)
    (q : Query) (f : LeaseUpdateForm) (store : List Doc)
    (h : f.internal_addr = none ∨ f.remote_addr = none ∨ f.remote_port = none) :
    (submit now fqdn q f store).resp = LeaseResponse.invalidUsage "Invalid form input"
    ∧ (submit now fqdn q f store).store = store
    ∧ (submit now fqdn q f store).events = [] := by
  have hv : validate f = false := by
    rcases h with ha | ha | ha <;> simp [validate, validIP?, validPort?, ha]
  refine ⟨?_, ?_, ?_⟩ <;> simp [submit, hv]

/-- Claim C8 witness: a request missing `remote_addr` is rejected before
any store access. -/
theorem submit_rejects_missing_required_field_w :
    (submit 7 "replica1" (Query.bySerial "ab") formNoRemote [doc1]).resp
      = LeaseResponse.invalidUsage "Invalid form input"
    ∧ (submit 7 "replica1" (Query.bySerial "ab") formNoRemote [doc1]).store = [doc1]
    ∧ (submit 7 "replica1" (Query.bySerial "ab") formNoRemote [doc1]).events = [] :=
  submit_rejects_missing_required_field 7 "replica1" (Query.bySerial "ab")
    formNoRemote [doc1] (Or.inr (Or.inl rfl))

/-! ### Claim C9 -/

/-- Claim C9: the validity check answers `"Certificate valid"` exactly
when some record carries the lowercase-hex rendering of the serial with
`status = "signed"`, and it never mutates the store. -/
theorem get_by_serial_valid_iff (serial_number : Nat) (store : List Doc) :
    ((get_by_serial serial_number store).1 = LeaseResponse.ok "Certificate valid"
      ↔ ∃ d ∈ store, d.serial_number = some (toHex serial_number)
          ∧ d.status = "signed")
    ∧ (get_by_serial serial_number store).2 = store := by
  unfold get_by_serial
  cases h : store.find? fun d =>
      d.serial_number == some (toHex serial_number) && d.status == "signed" with
  | none =>
    refine ⟨⟨fun hc => absurd hc (by simp), fun he => ?_⟩, rfl⟩
    rcases he with ⟨d, hd, h1, h2⟩
    have hnone := List.find?_eq_none.mp h d hd
    simp [h1, h2] at hnone
  | some d =>
    refine ⟨⟨fun _ => ?_, fun _ => rfl⟩, rfl⟩
    have hp := List.find?_some h
    have hm := List.mem_of_find?_eq_some h
    simp only [Bool.and_eq_true, beq_iff_eq] at hp
    exact ⟨d, hm, hp.1, hp.2⟩

/-! ### Claim C10 -/

/-- Claim C10: the owning-instance encoding `fqdn ++ "-" ++ service` is
not injective — the distinct pairs `("a-b", "c")` and `("a", "b-c")`
collide on `"a-b-c"` — so a flush issued for fqdn `"a"` and service
`"b-c"` clears a record claimed under fqdn `"a-b"` and service `"c"`. -/
theorem instance_string_collision :
    mkInstance "a-b" "c" = mkInstance "a" "b-c"
    ∧ (("a-b", "c") : String × String) ≠ ("a", "b-c")
    ∧ docCollide.inst = some (mkInstance "a-b" "c")
    ∧ (flush "a" "b-c" [docCollide]).store = [unsetLease docCollide]
    ∧ (flush "a" "b-c" [docCollide]).modifiedCount = 1 := by
  decide

end Lease
